import Mathlib

/-!
Verification of `prybar` (src/prybar.py): a utility that temporarily
registers a `pkg_resources` entry point in a working set and removes it
afterwards.  The embedding below translates the registration /
deregistration routine `dynamic_entrypoint` (src/prybar.py lines 11-131)
and the helper `format_scope` (lines 133-136), together with the parts of
the external `pkg_resources` collaborator that the routine calls
(`Distribution` key normalisation, `WorkingSet.add`, `EntryPoint.parse`).

Python dictionaries are modelled as insertion-ordered association lists
(`List (κ × β)`) with the exact dict semantics used by the source:
assignment to an existing key updates in place, assignment to a fresh key
appends, `setdefault` appends an empty entry when the key is absent, and
`del` removes the entry.  Python `list.remove` removes the first
occurrence.  All modelled flows only delete keys that are present, so the
total removal functions (identity when the key is absent) coincide with
Python on every state reached here.
-/

deriving instance DecidableEq for Except

namespace Prybar

/-- The single-quote character, used to build Python `repr` strings. -/
def sq : String := String.singleton (Char.ofNat 39)

/-- Python `repr` of a string without escapes: `'s'`. -/
def pyRepr (s : String) : String := sq ++ s ++ sq

/-- Python `repr` of an optional string: `None` or `'s'`.  The local
`name` variable of `dynamic_entrypoint` is `None` for pre-built /
textual entry points, and its `repr` appears in the duplicate-name
message. -/
def pyReprOpt : Option String → String
  | none => "None"
  | some s => pyRepr s

section Dict

variable {κ : Type} {β : Type} [DecidableEq κ]

/-- Python `d[k]` / `k in d` lookup on an insertion-ordered dict. -/
def dlookup : List (κ × β) → κ → Option β
  | [], _ => none
  | (k', v) :: rest, k => if k = k' then some v else dlookup rest k

/-- Python `d[k] = v`: update in place when present, append when fresh. -/
def dinsert : List (κ × β) → κ → β → List (κ × β)
  | [], k, v => [(k, v)]
  | (k', v') :: rest, k, v =>
    if k = k' then (k, v) :: rest else (k', v') :: dinsert rest k v

/-- Python `del d[k]` (identity when the key is absent; all modelled
flows delete present keys only). -/
def derase : List (κ × β) → κ → List (κ × β)
  | [], _ => []
  | (k', v') :: rest, k => if k = k' then rest else (k', v') :: derase rest k

/-- Python `d.setdefault(k, v)`: the dict after the call. -/
def dsetdefault (l : List (κ × β)) (k : κ) (v : β) : List (κ × β) :=
  match dlookup l k with
  | some _ => l
  | none => l ++ [(k, v)]

end Dict

/-- Python `list.remove(x)`: drop the first occurrence (identity when
absent; all modelled flows remove present elements only). -/
def lremove {α : Type} [DecidableEq α] : List α → α → List α
  | [], _ => []
  | x :: rest, y => if y = x then rest else x :: lremove rest y

/-- `pkg_resources.EntryPoint`: name, dotted module path, attribute
path, and the attached distribution (modelled by the distribution's
key; `none` = Python `None`). -/
structure EntryPoint where
  name : String
  module_name : String
  attrs : List String
  dist : Option String
deriving DecidableEq, Repr

/-- `pkg_resources.Distribution`, restricted to the fields
`dynamic_entrypoint` reads and writes: the normalised `key`, the
`location`, and the entry-point table returned by `get_entry_map()`
(group → (name → entry point); the inner dict is keyed by the local
`name` variable of `dynamic_entrypoint`, which is `None` for pre-built
and textual entry points, hence `Option String`). -/
structure Dist where
  key : String
  location : String
  entry_map : List (String × List (Option String × EntryPoint))
deriving DecidableEq, Repr

/-- `pkg_resources.WorkingSet`, restricted to the fields
`dynamic_entrypoint` touches: `by_key` (key → distribution),
`entry_keys` (location → list of keys) and `entries` (list of
locations). -/
structure WorkingSet where
  by_key : List (String × Dist)
  entry_keys : List (String × List String)
  entries : List String
deriving DecidableEq, Repr

/-- The empty working set. -/
def wsEmpty : WorkingSet := ⟨[], [], []⟩

/-- `prybar.__file__`, the location string of prybar's synthetic
distributions, modelled as an opaque fixed path. -/
def prybarFile : String := "/site-packages/prybar.py"

/-- A character kept unchanged by `pkg_resources.safe_name`
(`[A-Za-z0-9.]`). -/
def safeChar (c : Char) : Bool :=
  (('A' ≤ c && c ≤ 'Z') || ('a' ≤ c && c ≤ 'z') || ('0' ≤ c && c ≤ '9') || c = '.')

/-- Collapse consecutive dashes to one.  `safe_name` replaces each
maximal run of characters outside `[A-Za-z0-9.]` by a single dash;
mapping every such character to a dash first and collapsing dash runs
afterwards is equivalent because the dash itself is outside the class. -/
def collapseDashes : List Char → List Char
  | [] => []
  | c :: rest =>
    let r := collapseDashes rest
    if c = '-' then
      match r with
      | '-' :: _ => r
      | _ => c :: r
    else c :: r

/-- `pkg_resources.safe_name`: substitute each run of characters outside
`[A-Za-z0-9.]` with a single dash (`re.sub('[^A-Za-z0-9.]+', '-', name)`). -/
def safe_name (s : String) : String :=
  String.mk (collapseDashes (s.data.map (fun c => if safeChar c then c else '-')))

/-- `pkg_resources.Distribution(project_name=scope).key`: the
constructor stores `safe_name(scope)` as the project name and `key` is
its lower-cased form. -/
def distKey (scope : String) : String :=
  String.mk ((safe_name scope).data.map Char.toLower)

/-- `format_scope` (src/prybar.py lines 133-136): show the raw scope,
with the normalised key in parentheses when they differ. -/
def format_scope (scope distkey : String) : String :=
  if scope ≠ distkey then pyRepr scope ++ " (" ++ pyRepr distkey ++ ")"
  else pyRepr scope

/-- Strip leading and trailing whitespace (Python `str.strip`). -/
def trimChars (l : List Char) : List Char :=
  ((l.dropWhile Char.isWhitespace).reverse.dropWhile Char.isWhitespace).reverse

/-- Split a character list on a separator character. -/
def splitOnChar (sep : Char) : List Char → List (List Char)
  | [] => [[]]
  | c :: rest =>
    let r := splitOnChar sep rest
    if c = sep then [] :: r
    else
      match r with
      | h :: t => (c :: h) :: t
      | [] => [[c]]

/-- `pkg_resources.EntryPoint.parse` (external collaborator), modelled
for declarations of the form `name = module` or `name = module:attrs`
without extras: the attribute path is the `attrs` part split on dots,
empty when there is no `attrs` part; the parsed entry point carries no
distribution.  Malformed declarations yield `none` (the collaborator
raises `ValueError`). -/
def entryPointParse (s : String) : Option EntryPoint :=
  match splitOnChar '=' s.data with
  | [lhs, rhs] =>
    let n := trimChars lhs
    match splitOnChar ':' (trimChars rhs) with
    | [m] => some ⟨String.mk n, String.mk (trimChars m), [], none⟩
    | [m, a] =>
      some ⟨String.mk n, String.mk (trimChars m),
            (splitOnChar '.' (trimChars a)).map String.mk, none⟩
    | _ => none
  | _ => none

/-- The `group` argument: a Python string or a non-string value carrying
its `repr` (only the `repr` is observable, in the error message). -/
inductive GroupArg where
  | str (s : String)
  | nonStr (r : String)
deriving DecidableEq, Repr

/-- The `entrypoint` argument: absent (`None`), a declaration string, a
callable (observable through its `__name__` and `__module__`), a
pre-built `pkg_resources.EntryPoint`, or an unsupported value carrying
its `repr`. -/
inductive EPArg where
  | omitted
  | text (s : String)
  | callable (dunderName dunderModule : String)
  | prebuilt (ep : EntryPoint)
  | unsupported (r : String)
deriving DecidableEq, Repr

/-- The `attribute` argument: a single string or a tuple of strings. -/
inductive AttrArg where
  | str (s : String)
  | tuple (t : List String)
deriving DecidableEq, Repr

/-- The keyword arguments of `dynamic_entrypoint` (the `working_set`
argument is passed separately to the activation function). -/
structure Args where
  group : GroupArg
  entrypoint : EPArg
  name : Option String
  module : Option String
  attribute_arg : Option AttrArg
  scope : Option String
deriving DecidableEq, Repr

/-- The errors `dynamic_entrypoint` can raise, one constructor per
`raise` site (all are `ValueError` in the source; the spec names the
collision site CollisionError, the duplicate site DuplicateNameError and
the remaining constructor sites ArgumentError), plus the `assert` at
line 112 and the UsageError of the activation protocol.  Each carries
the exact message the source formats. -/
inductive Err where
  | badGroup (msg : String)
  | parseFailed (msg : String)
  | mixedCallable (msg : String)
  | distAttached (msg : String)
  | mixedPrebuilt (msg : String)
  | unsupportedEP (msg : String)
  | missingNameModule (msg : String)
  | collision (msg : String)
  | duplicate (msg : String)
  | assertFailed (msg : String)
  | usage (msg : String)
deriving DecidableEq, Repr

/-- Argument validation and normalisation, src/prybar.py lines 41-78,
in source order.  Returns the group string, the final value of the
local `name` variable (`None` for pre-built and textual entry points)
and the normalised `EntryPoint`.  Note two messages concatenate without
a space across source lines 59-60 and 70-71, exactly as in the source. -/
def validate (a : Args) : Except Err (String × Option String × EntryPoint) :=
  match a.group with
  | .nonStr r => .error (.badGroup ("group must be a string, got: " ++ r))
  | .str g =>
    match a.entrypoint with
    | .callable dn dm =>
      if a.module = none ∧ a.attribute_arg = none then
        let name := a.name.getD dn
        .ok (g, some name, ⟨name, dm, [dn], none⟩)
      else
        .error (.mixedCallable ("can" ++ sq ++ "t specify module_name and attribute alongside a callable entrypoint"))
    | .text s =>
      match entryPointParse s with
      | none => .error (.parseFailed ("EntryPoint must be in " ++ sq ++ "name=module:attrs [extras]" ++ sq ++ " format"))
      | some ep =>
        if ep.dist ≠ none then
          .error (.distAttached ("can" ++ sq ++ "t specify a pkg_resources.Entrypointinstance with a dist already attached"))
        else if a.name = none ∧ a.module = none ∧ a.attribute_arg = none then
          .ok (g, a.name, ep)
        else
          .error (.mixedPrebuilt ("can" ++ sq ++ "t specify name, module_name or attribute when entrypoint is a pkg_resources.Entrypoint"))
    | .prebuilt ep =>
      if ep.dist ≠ none then
        .error (.distAttached ("can" ++ sq ++ "t specify a pkg_resources.Entrypointinstance with a dist already attached"))
      else if a.name = none ∧ a.module = none ∧ a.attribute_arg = none then
        .ok (g, a.name, ep)
      else
        .error (.mixedPrebuilt ("can" ++ sq ++ "t specify name, module_name or attribute when entrypoint is a pkg_resources.Entrypoint"))
    | .unsupported r => .error (.unsupportedEP ("unsupported entrypoint: " ++ r))
    | .omitted =>
      match a.name, a.module with
      | some n, some m =>
        let attrs :=
          match a.attribute_arg with
          | some (.str s) => [s]
          | some (.tuple t) => t
          | none => [n]
        .ok (g, some n, ⟨n, m, attrs, none⟩)
      | _, _ =>
        .error (.missingNameModule ("name and module_name must be specified whenentrypoint is not specified"))

/-- The scope after defaulting (src/prybar.py lines 82-83:
`f'{__name__}.dynamic'` with `__name__ == 'prybar'`). -/
def scopeOf (a : Args) : String := a.scope.getD "prybar.dynamic"

/-- `pkg_resources.WorkingSet.add(dist)` (external collaborator) as
called at src/prybar.py line 100, i.e. with `entry=None` and the key
not yet in `by_key`: `insert_on` appends the location to `entries` when
absent (path normalisation is the identity on the abstract location
strings used here, and the egg-precedence reordering branch never fires
because no modelled working set lists the parent directory of
`prybar.__file__`); the key is appended to `entry_keys[location]`
(created empty first when absent) and the distribution is stored under
its key in `by_key`. -/
def wsAdd (ws : WorkingSet) (d : Dist) : WorkingSet :=
  let entries' := if d.location ∈ ws.entries then ws.entries else ws.entries ++ [d.location]
  let keys := (dlookup ws.entry_keys d.location).getD []
  let keys' := if d.key ∈ keys then keys else keys ++ [d.key]
  { by_key := dinsert ws.by_key d.key d
    entry_keys := dinsert ws.entry_keys d.location keys'
    entries := entries' }

/-- What the generator remembers across the `yield` for the tidy-up
code: the distribution key, the group, and the local `name` variable
(the key of the entry in the group mapping). -/
structure Handle where
  key : String
  group : String
  nameVar : Option String
deriving DecidableEq, Repr

/-- src/prybar.py lines 104-114: resolve the group mapping inside the
distribution `d` (already registered in `ws` under `key`), fail on a
duplicate name, check the `assert`, attach the distribution to the
entry point and insert it.  Errors carry the working set at the moment
of the raise: the `setdefault` of line 105 has already run, so the
state at the raise is `ws` with `d`'s entry map set-defaulted. -/
def registerEntry (key scope g : String) (nv : Option String) (ep : EntryPoint)
    (d : Dist) (ws : WorkingSet) : Except (Err × WorkingSet) WorkingSet :=
  let em1 := dsetdefault d.entry_map g []
  let d1 : Dist := { d with entry_map := em1 }
  let ws1 : WorkingSet := { ws with by_key := dinsert ws.by_key key d1 }
  let ge := (dlookup em1 g).getD []
  match dlookup ge nv with
  | some _ =>
    .error (.duplicate (pyReprOpt nv ++ " is already registered under " ++ pyRepr g
      ++ " in scope " ++ format_scope scope key), ws1)
  | none =>
    if ep.dist = none then
      let ep' : EntryPoint := { ep with dist := some key }
      let d2 : Dist := { d with entry_map := dinsert em1 g (dinsert ge nv ep') }
      .ok { ws1 with by_key := dinsert ws1.by_key key d2 }
    else
      .error (.assertFailed "entrypoint.dist is None", ws1)

/-- src/prybar.py lines 85-114: build the synthetic distribution for the
scope, fail when its normalised key already belongs to a foreign
distribution (one whose location is not `prybar.__file__`), register
the distribution when the key is fresh, then insert the entry point
via `registerEntry`. -/
def register (scope g : String) (nv : Option String) (ep : EntryPoint)
    (ws : WorkingSet) : Except (Err × WorkingSet) WorkingSet :=
  let key := distKey scope
  match dlookup ws.by_key key with
  | some d =>
    if d.location = prybarFile then
      registerEntry key scope g nv ep d ws
    else
      .error (.collision ("scope " ++ format_scope scope key
        ++ " already exists in working set at location " ++ d.location), ws)
  | none =>
    let fresh : Dist := ⟨key, prybarFile, []⟩
    registerEntry key scope g nv ep fresh (wsAdd ws fresh)

/-- Activation: the generator body from its first statement up to the
`yield` (src/prybar.py lines 41-117).  On success it returns the data
the tidy-up code needs together with the new working set; on failure
the error carries the working set at the moment of the raise. -/
def enterDyn (a : Args) (ws : WorkingSet) :
    Except (Err × WorkingSet) (Handle × WorkingSet) :=
  match validate a with
  | .error e => .error (e, ws)
  | .ok (g, nv, ep) =>
    match register (scopeOf a) g nv ep ws with
    | .error ews => .error ews
    | .ok ws' => .ok (⟨distKey (scopeOf a), g, nv⟩, ws')

/-- Deactivation: the tidy-up code after the `yield` (src/prybar.py
lines 119-130): delete the entry from the group mapping; delete the
group when its mapping became empty; when the distribution's entry map
became empty, delete the distribution from `by_key`, remove its key
from `entry_keys[prybar.__file__]`, and when that list became empty
delete it and remove `prybar.__file__` from `entries`. -/
def exitDyn (h : Handle) (ws : WorkingSet) : WorkingSet :=
  match dlookup ws.by_key h.key with
  | none => ws
  | some d =>
    let ge := (dlookup d.entry_map h.group).getD []
    let ge' := derase ge h.nameVar
    let em1 := dinsert d.entry_map h.group ge'
    let em2 := if ge'.isEmpty then derase em1 h.group else em1
    if em2.isEmpty then
      let eks' := lremove ((dlookup ws.entry_keys prybarFile).getD []) h.key
      if eks'.isEmpty then
        { by_key := derase ws.by_key h.key
          entry_keys := derase ws.entry_keys prybarFile
          entries := lremove ws.entries prybarFile }
      else
        { by_key := derase ws.by_key h.key
          entry_keys := dinsert ws.entry_keys prybarFile eks'
          entries := ws.entries }
    else
      { ws with by_key := dinsert ws.by_key h.key { d with entry_map := em2 } }

/-- What the `with` block's body does: return normally or raise. -/
inductive Body where
  | normal
  | raises (msg : String)
deriving DecidableEq, Repr

/-- Outcome of running `with dynamic_entrypoint(...):` around a body. -/
inductive RunResult where
  | ok (ws : WorkingSet)
  | enterError (e : Err) (ws : WorkingSet)
  | bodyError (msg : String) (ws : WorkingSet)
deriving DecidableEq, Repr

/-- `with dynamic_entrypoint(...) : body` under `contextlib`'s generator
protocol: `__enter__` runs the generator to the `yield`; when the body
raises, `__exit__` throws the exception into the generator at the
`yield`, and because the `yield` at src/prybar.py line 117 is not
wrapped in `try/finally`, the tidy-up code of lines 119-130 does not
run and the exception propagates with the registration still in place;
when the body returns normally the generator resumes and the tidy-up
runs. -/
def runWith (a : Args) (b : Body) (ws : WorkingSet) : RunResult :=
  match enterDyn a ws with
  | .error (e, ws') => .enterError e ws'
  | .ok (h, ws1) =>
    match b with
    | .normal => .ok (exitDyn h ws1)
    | .raises m => .bodyError m ws1

/-- Modelled from the spec: the activation-state machine of the
class-based protocol (spec sections 3-4: `ActivationState` is one of
idle / active-via-enter / active-via-start).  The class implementing
`start`/`stop`/`__enter__`/`__exit__` is not part of src/prybar.py
(which only defines the generator context manager); it is exercised
only by src/test_prybar.py.  The active states carry the registration
handle the deactivation needs. -/
inductive ActivationState where
  | idle
  | activeEnter (h : Handle)
  | activeStart (h : Handle)
deriving DecidableEq, Repr

/-- Modelled from the spec: a `dynamic_entrypoint` instance — the stored
constructor arguments plus the activation state.  Per spec section 4.1
construction is cheap and performs no registry access; validation and
registration happen on activation (as in src/prybar.py, where the
generator body only runs once entered). -/
structure DynCM where
  args : Args
  state : ActivationState
deriving DecidableEq, Repr

/-- Construction, `dynamic_entrypoint(...)`: calling the
`contextlib.contextmanager`-wrapped generator function only creates the
context-manager object holding the arguments; no statement of the body
executes and the working set is not touched, so construction never
raises. -/
def constructCM (a : Args) (ws : WorkingSet) : Except Err (DynCM × WorkingSet) :=
  .ok (⟨a, .idle⟩, ws)

/-- Modelled from the spec: `start()` (spec section 4.1 step 1) — a
UsageError while active via the block protocol, a no-op while already
started, and otherwise the same registration the context manager
performs, moving to active-via-start. -/
def start (cm : DynCM) (ws : WorkingSet) :
    Except (Err × WorkingSet) (DynCM × WorkingSet) :=
  match cm.state with
  | .activeEnter _ =>
    .error (.usage ("can" ++ sq ++ "t start() while active via __enter__()"), ws)
  | .activeStart _ => .ok (cm, ws)
  | .idle =>
    match enterDyn cm.args ws with
    | .error e => .error e
    | .ok (h, ws') => .ok ({ cm with state := .activeStart h }, ws')

/-- Modelled from the spec: `stop()` — a UsageError while active via the
block protocol, a no-op while idle, and otherwise the same
deregistration the context manager performs, moving back to idle. -/
def stop (cm : DynCM) (ws : WorkingSet) :
    Except (Err × WorkingSet) (DynCM × WorkingSet) :=
  match cm.state with
  | .activeEnter _ =>
    .error (.usage ("can" ++ sq ++ "t stop() while active via __enter__()"), ws)
  | .idle => .ok (cm, ws)
  | .activeStart h => .ok ({ cm with state := .idle }, exitDyn h ws)

/-- Modelled from the spec: `__enter__()` — a UsageError while active
via `start()` and while already block-active (re-entering the same
instance is a hard usage error), otherwise registration moving to
active-via-enter. -/
def enterCM (cm : DynCM) (ws : WorkingSet) :
    Except (Err × WorkingSet) (DynCM × WorkingSet) :=
  match cm.state with
  | .activeStart _ =>
    .error (.usage ("can" ++ sq ++ "t __enter__() while active via start()"), ws)
  | .activeEnter _ =>
    .error (.usage ("can" ++ sq ++ "t __enter__() while already active via __enter__()"), ws)
  | .idle =>
    match enterDyn cm.args ws with
    | .error e => .error e
    | .ok (h, ws') => .ok ({ cm with state := .activeEnter h }, ws')

/-- Modelled from the spec: `__exit__()` — performs the deregistration
when active via `__enter__`, and otherwise raises the UsageError whose
reworded exact-text contract is "exit called more than enter", leaving
the working set unchanged. -/
def exitCM (cm : DynCM) (ws : WorkingSet) :
    Except (Err × WorkingSet) (DynCM × WorkingSet) :=
  match cm.state with
  | .activeEnter h => .ok ({ cm with state := .idle }, exitDyn h ws)
  | _ => .error (.usage "exit called more than enter", ws)

/-- Number of entries for a given scope key, group and entry-point name
in the working set: the entries of the group mapping of the scope's
distribution whose entry point bears that name. -/
def countEntries (ws : WorkingSet) (key g name : String) : Nat :=
  match dlookup ws.by_key key with
  | none => 0
  | some d => ((dlookup d.entry_map g).getD []).countP (fun p => p.2.name = name)

/-- The observable (name, module, attribute-path) triples registered
under a scope key and group. -/
def obsEntries (ws : WorkingSet) (key g : String) : List (String × String × List String) :=
  match dlookup ws.by_key key with
  | none => []
  | some d => ((dlookup d.entry_map g).getD []).map (fun p => (p.2.name, p.2.module_name, p.2.attrs))

section DictLemmas

variable {κ : Type} {β : Type} [DecidableEq κ]

@[simp] theorem dlookup_nil (k : κ) : dlookup ([] : List (κ × β)) k = none := rfl

@[simp] theorem dlookup_cons (k k' : κ) (v : β) (l : List (κ × β)) :
    dlookup ((k', v) :: l) k = if k = k' then some v else dlookup l k := rfl

theorem dlookup_append_left {l : List (κ × β)} {k : κ} {v : β}
    (h : dlookup l k = some v) (l' : List (κ × β)) :
    dlookup (l ++ l') k = some v := by
  induction l with
  | nil => simp at h
  | cons p rest ih =>
    obtain ⟨k', v'⟩ := p
    by_cases hk : k = k' <;> simp_all [dlookup]

theorem dlookup_append_right {l : List (κ × β)} {k : κ}
    (h : dlookup l k = none) (l' : List (κ × β)) :
    dlookup (l ++ l') k = dlookup l' k := by
  induction l with
  | nil => simp
  | cons p rest ih =>
    obtain ⟨k', v'⟩ := p
    by_cases hk : k = k' <;> simp_all [dlookup]

theorem dlookup_dinsert_self (l : List (κ × β)) (k : κ) (v : β) :
    dlookup (dinsert l k v) k = some v := by
  induction l with
  | nil => simp [dinsert, dlookup]
  | cons p rest ih =>
    obtain ⟨k', v'⟩ := p
    by_cases hk : k = k' <;> simp_all [dinsert, dlookup]

theorem dinsert_absent {l : List (κ × β)} {k : κ} (h : dlookup l k = none) (v : β) :
    dinsert l k v = l ++ [(k, v)] := by
  induction l with
  | nil => simp [dinsert]
  | cons p rest ih =>
    obtain ⟨k', v'⟩ := p
    by_cases hk : k = k' <;> simp_all [dinsert, dlookup]

theorem dinsert_present_self {l : List (κ × β)} {k : κ} {v : β}
    (h : dlookup l k = some v) : dinsert l k v = l := by
  induction l with
  | nil => simp at h
  | cons p rest ih =>
    obtain ⟨k', v'⟩ := p
    by_cases hk : k = k' <;> simp_all [dinsert, dlookup]

theorem dinsert_append_singleton {l : List (κ × β)} {k : κ}
    (h : dlookup l k = none) (v v' : β) :
    dinsert (l ++ [(k, v)]) k v' = l ++ [(k, v')] := by
  induction l with
  | nil => simp [dinsert]
  | cons p rest ih =>
    obtain ⟨k', v''⟩ := p
    by_cases hk : k = k' <;> simp_all [dinsert, dlookup]

theorem derase_append_singleton {l : List (κ × β)} {k : κ}
    (h : dlookup l k = none) (v : β) : derase (l ++ [(k, v)]) k = l := by
  induction l with
  | nil => simp [derase]
  | cons p rest ih =>
    obtain ⟨k', v'⟩ := p
    by_cases hk : k = k' <;> simp_all [derase, dlookup]

theorem dsetdefault_present {l : List (κ × β)} {k : κ} {v : β}
    (h : dlookup l k = some v) (v0 : β) : dsetdefault l k v0 = l := by
  simp [dsetdefault, h]

end DictLemmas

theorem lremove_append_singleton {α : Type} [DecidableEq α] {l : List α} {a : α}
    (h : a ∉ l) : lremove (l ++ [a]) a = l := by
  induction l with
  | nil => simp [lremove]
  | cons x rest ih =>
    simp only [List.mem_cons, not_or] at h
    simpa [lremove, if_neg h.1] using ih h.2

/-- Every entry point a successful validation returns carries no
attached distribution: the pre-built shape by the explicit rejection at
src/prybar.py line 58, the textual shape because the parser attaches
none, and the callable and explicit-field shapes by fresh construction. -/
theorem validate_ok_dist_none {a : Args} {g : String} {nv : Option String}
    {ep : EntryPoint} (h : validate a = .ok (g, nv, ep)) : ep.dist = none := by
  unfold validate at h
  repeat' split at h
  all_goals simp_all
  all_goals (obtain ⟨-, -, h2⟩ := h; simp [← h2])

/-- The working set produced by registering a validated entry point
under a fresh scope into a working set that holds no prybar residue. -/
def wsAfterFresh (ws : WorkingSet) (key g : String) (nv : Option String)
    (ep : EntryPoint) : WorkingSet :=
  { by_key := ws.by_key ++ [(key, ⟨key, prybarFile, [(g, [(nv, { ep with dist := some key })])]⟩)]
    entry_keys := ws.entry_keys ++ [(prybarFile, [key])]
    entries := ws.entries ++ [prybarFile] }

/-- Activation under a fresh scope key, on a working set without prybar
residue: the registration succeeds and produces exactly the appended
synthetic distribution, location-index entry and location. -/
theorem enterDyn_fresh {a : Args} {g : String} {nv : Option String}
    {ep : EntryPoint} {ws : WorkingSet}
    (hv : validate a = .ok (g, nv, ep))
    (hk : dlookup ws.by_key (distKey (scopeOf a)) = none)
    (hl : prybarFile ∉ ws.entries)
    (he : dlookup ws.entry_keys prybarFile = none) :
    enterDyn a ws = .ok (⟨distKey (scopeOf a), g, nv⟩,
      wsAfterFresh ws (distKey (scopeOf a)) g nv ep) := by
  have hd := validate_ok_dist_none hv
  simp only [enterDyn, hv, register, hk, registerEntry, wsAdd, wsAfterFresh,
    dsetdefault, dlookup_nil, dlookup_cons, he, hl, Option.getD_none,
    Option.getD_some, List.not_mem_nil, if_false, if_neg hl, List.nil_append,
    if_pos rfl, hd, ite_true, ite_false, dinsert_absent hk, dinsert_absent he,
    dinsert_append_singleton hk]
  simp [dinsert]

/-- Deactivating the registration made by `enterDyn_fresh` removes every
trace: the entry, the emptied group, the emptied distribution, its
key in the location index and the location itself, restoring the
original working set exactly. -/
theorem exitDyn_fresh {ws : WorkingSet} {key : String}
    (g : String) (nv : Option String) (ep : EntryPoint)
    (hk : dlookup ws.by_key key = none)
    (hl : prybarFile ∉ ws.entries)
    (he : dlookup ws.entry_keys prybarFile = none) :
    exitDyn ⟨key, g, nv⟩ (wsAfterFresh ws key g nv ep) = ws := by
  simp only [exitDyn, wsAfterFresh, dlookup_append_right hk,
    dlookup_append_right he, dlookup_cons, if_pos rfl, Option.getD_some,
    derase, dinsert, lremove, List.isEmpty_nil, ite_true,
    derase_append_singleton hk, derase_append_singleton he,
    lremove_append_singleton hl]

/-- After a successful `registerEntry`, the scope's distribution is in
the working set at prybar's location and its group mapping holds the
entry point with the distribution key attached under the local name
variable. -/
theorem registerEntry_ok_state {key scope g : String} {nv : Option String}
    {ep : EntryPoint} {d : Dist} {ws ws1 : WorkingSet}
    (h : registerEntry key scope g nv ep d ws = .ok ws1) :
    ∃ d' ge, dlookup ws1.by_key key = some d' ∧ d'.location = d.location ∧
      dlookup d'.entry_map g = some ge ∧
      dlookup ge nv = some { ep with dist := some key } := by
  simp only [registerEntry] at h
  split at h
  · exact absurd h (by simp)
  · split at h
    · injection h with h'
      subst h'
      exact ⟨_, _, dlookup_dinsert_self .., rfl, dlookup_dinsert_self ..,
        dlookup_dinsert_self ..⟩
    · exact absurd h (by simp)

/-- After a successful activation, the scope's distribution is in the
working set at prybar's location and its group mapping holds the entry
point under the local name variable. -/
theorem enterDyn_ok_state {a : Args} {g : String} {nv : Option String}
    {ep : EntryPoint} {ws ws1 : WorkingSet} {h : Handle}
    (hv : validate a = .ok (g, nv, ep))
    (hok : enterDyn a ws = .ok (h, ws1)) :
    h = ⟨distKey (scopeOf a), g, nv⟩ ∧
    ∃ d' ge, dlookup ws1.by_key (distKey (scopeOf a)) = some d' ∧
      d'.location = prybarFile ∧ dlookup d'.entry_map g = some ge ∧
      dlookup ge nv = some { ep with dist := some (distKey (scopeOf a)) } := by
  simp only [enterDyn, hv] at hok
  cases hr : register (scopeOf a) g nv ep ws with
  | error ews => rw [hr] at hok; exact absurd hok (by simp)
  | ok ws' =>
    rw [hr] at hok
    simp only [Except.ok.injEq, Prod.mk.injEq] at hok
    obtain ⟨hh, hw⟩ := hok
    subst hw
    refine ⟨hh.symm, ?_⟩
    simp only [register] at hr
    cases hkk : dlookup ws.by_key (distKey (scopeOf a)) with
    | some d =>
      simp only [hkk] at hr
      split at hr
      · obtain ⟨d', ge, h1, h2, h3, h4⟩ := registerEntry_ok_state hr
        refine ⟨d', ge, h1, ?_, h3, h4⟩
        rw [h2]; assumption
      · exact absurd hr (by simp)
    | none =>
      simp only [hkk] at hr
      obtain ⟨d', ge, h1, h2, h3, h4⟩ := registerEntry_ok_state hr
      exact ⟨d', ge, h1, h2, h3, h4⟩

/-- `registerEntry` on a distribution whose group mapping already holds
the name raises the duplicate-name error, with the working set exactly
as it was (the `setdefault` found the group, so it did not change the
table). -/
theorem registerEntry_duplicate {key scope g : String} {nv : Option String}
    {ep epOld : EntryPoint} {d : Dist} {ge : List (Option String × EntryPoint)}
    {ws : WorkingSet}
    (hws : dlookup ws.by_key key = some d)
    (hg : dlookup d.entry_map g = some ge)
    (hn : dlookup ge nv = some epOld) :
    registerEntry key scope g nv ep d ws =
      .error (.duplicate (pyReprOpt nv ++ " is already registered under " ++ pyRepr g
        ++ " in scope " ++ format_scope scope key), ws) := by
  obtain ⟨dk, dl, dm⟩ := d
  obtain ⟨wb, we, wn⟩ := ws
  simp only [registerEntry, dsetdefault_present hg, dinsert_present_self hws,
    hg, Option.getD_some, hn]

/-- Classifies the errors the spec calls CollisionError and
DuplicateNameError. -/
def isAbortErr : Err → Bool
  | .collision _ => true
  | .duplicate _ => true
  | _ => false

/-- `registerEntry` on a freshly created (empty) distribution never
raises the collision or duplicate error: its group mapping was just
created empty, so the name cannot be present. -/
theorem registerEntry_fresh_no_abort {key scope g : String} {nv : Option String}
    {ep : EntryPoint} {ws ws' : WorkingSet} {e : Err}
    (h : registerEntry key scope g nv ep ⟨key, prybarFile, []⟩ ws = .error (e, ws')) :
    isAbortErr e = false := by
  simp only [registerEntry, dsetdefault, dlookup_nil, List.nil_append] at h
  simp only [dlookup_cons, eq_self_iff_true, if_true, Option.getD_some,
    dlookup_nil] at h
  split at h
  · exact absurd h (by simp)
  · simp only [Except.error.injEq, Prod.mk.injEq] at h
    rw [← h.1]
    rfl

/-- When `registerEntry` on an existing distribution raises the
collision or duplicate error, the working set it leaves behind is
exactly the input: the only mutation preceding the raise is the
`setdefault`, which on the duplicate path found the group already
present. -/
theorem registerEntry_abort_state {key scope g : String} {nv : Option String}
    {ep : EntryPoint} {d : Dist} {ws ws' : WorkingSet} {e : Err}
    (hws : dlookup ws.by_key key = some d)
    (h : registerEntry key scope g nv ep d ws = .error (e, ws'))
    (he : isAbortErr e = true) : ws' = ws := by
  unfold registerEntry at h
  cases hg : dlookup d.entry_map g with
  | some ge0 =>
    obtain ⟨dk, dl, dm⟩ := d
    obtain ⟨wb, wk, wn⟩ := ws
    simp only [dsetdefault_present hg, dinsert_present_self hws, hg,
      Option.getD_some] at h
    split at h
    · injection h with h'
      obtain ⟨-, hw⟩ := Prod.mk.injEq .. ▸ h'
      exact hw.symm
    · split at h
      · exact absurd h (by simp)
      · injection h with h'
        obtain ⟨hh, -⟩ := Prod.mk.injEq .. ▸ h'
        rw [← hh] at he
        exact absurd he (by simp [isAbortErr])
  | none =>
    simp only [dsetdefault, hg, dlookup_append_right hg, dlookup_cons,
      eq_self_iff_true, if_true, Option.getD_some, dlookup_nil] at h
    split at h
    · exact absurd h (by simp)
    · simp only [Except.error.injEq, Prod.mk.injEq] at h
      rw [← h.1] at he
      exact absurd he (by simp [isAbortErr])

/-- When `register` raises the collision or duplicate error, the working
set is exactly as it was before the call. -/
theorem register_abort_state {scope g : String} {nv : Option String}
    {ep : EntryPoint} {ws ws' : WorkingSet} {e : Err}
    (h : register scope g nv ep ws = .error (e, ws'))
    (he : isAbortErr e = true) : ws' = ws := by
  simp only [register] at h
  cases hkk : dlookup ws.by_key (distKey scope) with
  | some d =>
    simp only [hkk] at h
    split at h
    · exact registerEntry_abort_state hkk h he
    · simp only [Except.error.injEq, Prod.mk.injEq] at h
      exact h.2.symm
  | none =>
    simp only [hkk] at h
    have hf := registerEntry_fresh_no_abort h
    simp [hf] at he

/-- When `registerEntry` raises an error on an entry point with no
attached distribution, that error is never the assertion failure: the
`assert` at src/prybar.py line 112 only fires on an attached
distribution. -/
theorem registerEntry_no_assert {key scope g : String} {nv : Option String}
    {ep : EntryPoint} {d : Dist} {ws ws' : WorkingSet} {e : Err}
    (hd : ep.dist = none)
    (h : registerEntry key scope g nv ep d ws = .error (e, ws')) :
    ∀ m, e ≠ .assertFailed m := by
  simp only [registerEntry] at h
  split at h
  · simp only [Except.error.injEq, Prod.mk.injEq] at h
    rw [← h.1]
    intro m hm
    cases hm
  · rw [if_pos hd] at h
    exact absurd h (by simp)

/-- Number of entries after a fresh-scope registration: exactly one. -/
theorem countEntries_wsAfterFresh {ws : WorkingSet} {key : String}
    (g : String) (nv : Option String) (ep : EntryPoint)
    (hk : dlookup ws.by_key key = none) :
    countEntries (wsAfterFresh ws key g nv ep) key g ep.name = 1 := by
  obtain ⟨n0, m0, a0, d0⟩ := ep
  simp [countEntries, wsAfterFresh, dlookup_append_right hk, List.countP_cons]

/-- Observable entries after a fresh-scope registration: exactly the
registered (name, module, attribute-path). -/
theorem obsEntries_wsAfterFresh {ws : WorkingSet} {key : String}
    (g : String) (nv : Option String) (ep : EntryPoint)
    (hk : dlookup ws.by_key key = none) :
    obsEntries (wsAfterFresh ws key g nv ep) key g =
      [(ep.name, ep.module_name, ep.attrs)] := by
  obtain ⟨n0, m0, a0, d0⟩ := ep
  simp [obsEntries, wsAfterFresh, dlookup_append_right hk]

/-- Sample call `dynamic_entrypoint('test-group', ep_1, scope='myscope')`
with `ep_1` a function defined in module `test_prybar`. -/
def sampleArgs : Args :=
  ⟨.str "test-group", .callable "ep_1" "test_prybar", none, none, none, some "myscope"⟩

/-- The normalised entry point of `sampleArgs`. -/
def sampleEP : EntryPoint := ⟨"ep_1", "test_prybar", ["ep_1"], none⟩

/-- The working set after activating `sampleArgs` on an empty working
set. -/
def sampleWs1 : WorkingSet :=
  ⟨[("myscope", ⟨"myscope", prybarFile,
      [("test-group", [(some "ep_1", ⟨"ep_1", "test_prybar", ["ep_1"], some "myscope"⟩)])]⟩)],
   [(prybarFile, ["myscope"])], [prybarFile]⟩

/-- C1: for every valid construction, activation on a working set with
no distribution under the scope's key and no prybar residue succeeds
and leaves exactly one entry for (scope, group, name); the matching
deactivation leaves zero such entries and restores the working set
exactly — the (group, name) entry, the emptied group key, the emptied
synthetic distribution, its key in the location index and the location
itself are all removed, leaving no residue. -/
theorem c1_activation_roundtrip (a : Args) (g : String) (nv : Option String)
    (ep : EntryPoint) (ws : WorkingSet)
    (hv : validate a = .ok (g, nv, ep))
    (hk : dlookup ws.by_key (distKey (scopeOf a)) = none)
    (hl : prybarFile ∉ ws.entries)
    (he : dlookup ws.entry_keys prybarFile = none) :
    ∃ ws1, enterDyn a ws = .ok (⟨distKey (scopeOf a), g, nv⟩, ws1) ∧
      countEntries ws1 (distKey (scopeOf a)) g ep.name = 1 ∧
      countEntries (exitDyn ⟨distKey (scopeOf a), g, nv⟩ ws1) (distKey (scopeOf a)) g ep.name = 0 ∧
      exitDyn ⟨distKey (scopeOf a), g, nv⟩ ws1 = ws := by
  refine ⟨wsAfterFresh ws (distKey (scopeOf a)) g nv ep,
    enterDyn_fresh hv hk hl he, countEntries_wsAfterFresh g nv ep hk, ?_, ?_⟩
  · rw [exitDyn_fresh g nv ep hk hl he]
    simp [countEntries, hk]
  · exact exitDyn_fresh g nv ep hk hl he

/-- Witness for C1 at `sampleArgs` on the empty working set. -/
theorem c1_activation_roundtrip_witness :
    ∃ ws1, enterDyn sampleArgs wsEmpty = .ok (⟨"myscope", "test-group", some "ep_1"⟩, ws1) ∧
      countEntries ws1 "myscope" "test-group" "ep_1" = 1 ∧
      countEntries (exitDyn ⟨"myscope", "test-group", some "ep_1"⟩ ws1) "myscope" "test-group" "ep_1" = 0 ∧
      exitDyn ⟨"myscope", "test-group", some "ep_1"⟩ ws1 = wsEmpty :=
  c1_activation_roundtrip sampleArgs "test-group" (some "ep_1") sampleEP wsEmpty
    (by decide) (by decide) (by decide) (by decide)

/-- C10: every construction accepted by validation yields a spec with no
attached package identity, and consequently activation never fails the
assertion at src/prybar.py line 112. -/
theorem c10_validated_spec_has_no_dist (a : Args) (g : String)
    (nv : Option String) (ep : EntryPoint)
    (hv : validate a = .ok (g, nv, ep)) :
    ep.dist = none ∧
    ∀ ws ws' e, enterDyn a ws = .error (e, ws') → ∀ m, e ≠ .assertFailed m := by
  have hd := validate_ok_dist_none hv
  refine ⟨hd, ?_⟩
  intro ws ws' e h
  simp only [enterDyn, hv] at h
  cases hr : register (scopeOf a) g nv ep ws with
  | ok w => rw [hr] at h; exact absurd h (by simp)
  | error ews =>
    obtain ⟨e1, w1⟩ := ews
    rw [hr] at h
    simp only [Except.error.injEq, Prod.mk.injEq] at h
    rw [← h.1]
    simp only [register] at hr
    cases hkk : dlookup ws.by_key (distKey (scopeOf a)) with
    | some d =>
      simp only [hkk] at hr
      split at hr
      · exact registerEntry_no_assert hd hr
      · simp only [Except.error.injEq, Prod.mk.injEq] at hr
        rw [← hr.1]
        intro m hm
        cases hm
    | none =>
      simp only [hkk] at hr
      exact registerEntry_no_assert hd hr

/-- Witness for C10 at `sampleArgs`. -/
theorem c10_validated_spec_has_no_dist_witness :
    sampleEP.dist = none ∧
    ∀ ws ws' e, enterDyn sampleArgs ws = .error (e, ws') → ∀ m, e ≠ .assertFailed m :=
  c10_validated_spec_has_no_dist sampleArgs "test-group" (some "ep_1") sampleEP (by decide)

/-- C9: whenever activation raises the scope-collision or the
duplicate-name error, the working set it leaves behind is exactly the
working set before the call — the raise happens before any insertion or
attachment (the only mutation candidates, the `WorkingSet.add` and the
`setdefault`, never precede these two raises with an effect). -/
theorem c9_abort_atomicity (a : Args) (ws ws' : WorkingSet) (e : Err)
    (h : enterDyn a ws = .error (e, ws')) (he : isAbortErr e = true) :
    ws' = ws := by
  simp only [enterDyn] at h
  cases hv : validate a with
  | error e0 =>
    simp only [hv, Except.error.injEq, Prod.mk.injEq] at h
    exact h.2.symm
  | ok t =>
    obtain ⟨g, nv, ep⟩ := t
    simp only [hv] at h
    cases hr : register (scopeOf a) g nv ep ws with
    | ok w => simp only [hr] at h; exact absurd h (by simp)
    | error ews =>
      obtain ⟨e1, w1⟩ := ews
      simp only [hr, Except.error.injEq, Prod.mk.injEq] at h
      obtain ⟨he1, hw1⟩ := h
      subst he1 hw1
      exact register_abort_state hr he

/-- A working set in which a foreign distribution (not at prybar's
location) owns the key `pytest`. -/
def wsPytest : WorkingSet :=
  ⟨[("pytest", ⟨"pytest", "/site-packages/pytest", []⟩)],
   [("/site-packages/pytest", ["pytest"])], ["/site-packages/pytest"]⟩

/-- Arguments requesting the already-taken scope `pytest`. -/
def aPytest : Args :=
  ⟨.str "test-group", .callable "ep_1" "test_prybar", none, none, none, some "pytest"⟩

/-- The collision message raised when requesting scope `pytest` against
`wsPytest`. -/
def pytestCollisionMsg : String :=
  "scope " ++ pyRepr "pytest" ++ " already exists in working set at location /site-packages/pytest"

/-- Witness for C9: the collision raised for scope `pytest` leaves the
working set unchanged. -/
theorem c9_abort_atomicity_witness :
    enterDyn aPytest wsPytest = .error (.collision pytestCollisionMsg, wsPytest) ∧
    isAbortErr (.collision pytestCollisionMsg) = true ∧ wsPytest = wsPytest :=
  ⟨by decide, rfl,
    c9_abort_atomicity aPytest wsPytest wsPytest (.collision pytestCollisionMsg)
      (by decide) rfl⟩

/-- C4 (amended): a second activation with the same group and the same
name under the same scope, while the first is active, raises the
duplicate-name error and leaves the working set unchanged — the first
registration is not overwritten; when both activations carry the name
in the local `name` variable (the callable and explicit-field shapes),
the message identifies the name, the group and the scope (through
`format_scope`, which shows both the raw and normalised scope when they
differ).  For the textual and pre-built shapes the local `name`
variable is `None` and the message prints `None` instead (see the
counterexample). -/
theorem c4_duplicate_name_rejected (a1 a2 : Args) (g n : String)
    (ep1 ep2 : EntryPoint) (ws ws1 : WorkingSet) (h : Handle)
    (hv1 : validate a1 = .ok (g, some n, ep1))
    (hv2 : validate a2 = .ok (g, some n, ep2))
    (hs : a2.scope = a1.scope)
    (hok : enterDyn a1 ws = .ok (h, ws1)) :
    enterDyn a2 ws1 = .error (.duplicate (pyRepr n ++ " is already registered under "
      ++ pyRepr g ++ " in scope "
      ++ format_scope (scopeOf a2) (distKey (scopeOf a2))), ws1) := by
  obtain ⟨-, d', ge, h1, h2, h3, h4⟩ := enterDyn_ok_state hv1 hok
  have hscope : scopeOf a2 = scopeOf a1 := by simp [scopeOf, hs]
  rw [hscope]
  simp only [enterDyn, hv2, register, hscope, h1, if_pos h2,
    registerEntry_duplicate h1 h3 h4]
  simp [pyReprOpt]

/-- A second activation colliding with `sampleArgs`: same group, same
name (overridden to `ep_1`), same scope. -/
def sampleArgsClash : Args :=
  ⟨.str "test-group", .callable "ep_2" "test_prybar", some "ep_1", none, none, some "myscope"⟩

/-- Witness for C4: the clash against the active `sampleArgs`
registration. -/
theorem c4_duplicate_name_rejected_witness :
    enterDyn sampleArgsClash sampleWs1 = .error (.duplicate (pyRepr "ep_1"
      ++ " is already registered under " ++ pyRepr "test-group" ++ " in scope "
      ++ format_scope "myscope" "myscope"), sampleWs1) :=
  c4_duplicate_name_rejected sampleArgs sampleArgsClash "test-group" "ep_1"
    sampleEP ⟨"ep_1", "test_prybar", ["ep_2"], none⟩ wsEmpty sampleWs1
    ⟨"myscope", "test-group", some "ep_1"⟩
    (by decide) (by decide) rfl (by decide)

/-- Whether `pat` occurs as a contiguous substring of `s`, checked on
the character lists. -/
def strContains (s pat : String) : Bool :=
  (List.range (s.data.length + 1)).any (fun i => pat.data.isPrefixOf (s.data.drop i))

/-- A textual activation
`dynamic_entrypoint('test-group', 'foo = mod:foo', scope='cscope')`:
the declared entry-point name is `foo`, but validation keeps the local
`name` variable `None` for this shape. -/
def aTextFoo : Args :=
  ⟨.str "test-group", .text "foo = mod:foo", none, none, none, some "cscope"⟩

/-- A second textual activation with the same entry-point name `foo`,
group and scope: `dynamic_entrypoint('test-group', 'foo = mod2:bar',
scope='cscope')`. -/
def aTextFooAgain : Args :=
  ⟨.str "test-group", .text "foo = mod2:bar", none, none, none, some "cscope"⟩

/-- The working set while `aTextFoo` is active on an empty working set:
the entry is keyed under `None`, not under `foo`. -/
def wsTextFoo : WorkingSet :=
  ⟨[("cscope", ⟨"cscope", prybarFile,
      [("test-group", [(none, ⟨"foo", "mod", ["foo"], some "cscope"⟩)])]⟩)],
   [(prybarFile, ["cscope"])], [prybarFile]⟩

/-- The duplicate message raised for the second textual activation: it
prints `None`, the local `name` variable, not the entry-point name. -/
def noneDuplicateMsg : String :=
  "None is already registered under " ++ pyRepr "test-group" ++ " in scope " ++ pyRepr "cscope"

/-- C4 counterexample: two textual activations with the same
entry-point name `foo`, group and scope.  The second raises the
duplicate-name error, but its message prints `None` — the local `name`
variable under which the source keys the entry (line 114
`group_entries[name]`) — and the name `foo` does not occur anywhere in
the message, so the message does not identify the name. -/
theorem c4_counterexample :
    enterDyn aTextFoo wsEmpty = .ok (⟨"cscope", "test-group", none⟩, wsTextFoo) ∧
    enterDyn aTextFooAgain wsTextFoo = .error (.duplicate noneDuplicateMsg, wsTextFoo) ∧
    strContains noneDuplicateMsg "foo" = false := by
  exact ⟨by decide, by decide, by decide⟩

/-- Activation with scope `foo-bar`. -/
def aFooBar : Args :=
  ⟨.str "test-group", .callable "ep_1" "test_prybar", none, none, none, some "foo-bar"⟩

/-- Activation with scope `foo_bar`, which normalises to `foo-bar`. -/
def aFooUnderBar : Args :=
  ⟨.str "test-group", .callable "ep_1" "test_prybar", none, none, none, some "foo_bar"⟩

/-- The working set while `aFooBar` is active on an empty working set. -/
def wsFooBar : WorkingSet :=
  ⟨[("foo-bar", ⟨"foo-bar", prybarFile,
      [("test-group", [(some "ep_1", ⟨"ep_1", "test_prybar", ["ep_1"], some "foo-bar"⟩)])]⟩)],
   [(prybarFile, ["foo-bar"])], [prybarFile]⟩

/-- Does an activation outcome consist of the collision error (the
raise at src/prybar.py line 95)? -/
def raisesCollision : Except (Err × WorkingSet) (Handle × WorkingSet) → Bool
  | .error (.collision _, _) => true
  | _ => false

/-- C3 counterexample: activating scope `foo-bar` and then scope
`foo_bar` (same normalised key) with the same group and name does not
raise the collision error the claim announces — the collision check
accepts the key because the existing distribution lies at prybar's own
location, and the failure is the duplicate-name error instead. -/
theorem c3_counterexample :
    enterDyn aFooBar wsEmpty = .ok (⟨"foo-bar", "test-group", some "ep_1"⟩, wsFooBar) ∧
    raisesCollision (enterDyn aFooUnderBar wsFooBar) = false := by
  exact ⟨by decide, by decide⟩

/-- C3 amended: activating scope `foo-bar` and then, while it is
active, scope `foo_bar` with the same group and name raises the
duplicate-name error (not a collision error); its message contains the
second raw scope string and the normalised key — which equals the first
raw scope string — shown as `'foo_bar' ('foo-bar')`. -/
theorem c3_normalised_scope_duplicate :
    enterDyn aFooUnderBar wsFooBar = .error (.duplicate (pyRepr "ep_1"
      ++ " is already registered under " ++ pyRepr "test-group" ++ " in scope "
      ++ pyRepr "foo_bar" ++ " (" ++ pyRepr "foo-bar" ++ ")"), wsFooBar) := by
  decide

/-- Arguments with the default scope:
`dynamic_entrypoint('test-group', ep_1)`. -/
def aDefaultScope : Args :=
  ⟨.str "test-group", .callable "ep_1" "test_prybar", none, none, none, none⟩

/-- The working set left behind when the block body raises while
`aDefaultScope` is registered: the registration survives. -/
def wsLeaked : WorkingSet :=
  ⟨[("prybar.dynamic", ⟨"prybar.dynamic", prybarFile,
      [("test-group", [(some "ep_1", ⟨"ep_1", "test_prybar", ["ep_1"], some "prybar.dynamic"⟩)])]⟩)],
   [(prybarFile, ["prybar.dynamic"])], [prybarFile]⟩

/-- C2: when the `with` block's body raises, the exception propagates
with the tidy-up skipped — the entry, the synthetic distribution, the
location-index entry and the location all remain in the working set
(the `yield` at src/prybar.py line 117 is not wrapped in
`try/finally`); the normal exit path does clean up fully. -/
theorem c2_exception_skips_cleanup :
    runWith aDefaultScope (.raises "boom") wsEmpty = .bodyError "boom" wsLeaked ∧
    countEntries wsLeaked "prybar.dynamic" "test-group" "ep_1" = 1 ∧
    wsLeaked ≠ wsEmpty ∧
    runWith aDefaultScope .normal wsEmpty = .ok wsEmpty := by
  refine ⟨by decide, by decide, by decide, by decide⟩

/-- Arguments with a non-string group (`dynamic_entrypoint(42, ep_1)`). -/
def aBadGroup : Args :=
  ⟨.nonStr "42", .callable "ep_1" "test_prybar", none, none, none, none⟩

/-- C6 counterexample: for the malformed input `group=42`, construction
raises nothing and returns the idle instance with the working set
untouched — the ArgumentError only surfaces at activation, because the
generator body (where the validation of src/prybar.py lines 41-78
lives) does not run until the context is entered. -/
theorem c6_counterexample :
    constructCM aBadGroup wsEmpty = .ok (⟨aBadGroup, .idle⟩, wsEmpty) ∧
    enterDyn aBadGroup wsEmpty =
      .error (.badGroup ("group must be a string, got: 42"), wsEmpty) := by
  exact ⟨rfl, by decide⟩

/-- C6 amended: construction performs no registry mutation and raises
no error; every ArgumentError for malformed or contradictory inputs is
raised at activation, before any registry mutation — the activation
returns exactly the validation error with the working set unchanged. -/
theorem c6_validation_errors_at_activation (a : Args) (ws : WorkingSet)
    (e : Err) (hv : validate a = .error e) :
    constructCM a ws = .ok (⟨a, .idle⟩, ws) ∧
    enterDyn a ws = .error (e, ws) := by
  exact ⟨rfl, by simp [enterDyn, hv]⟩

/-- Arguments missing both the entry point and the name/module fields
(`dynamic_entrypoint('test-group')`). -/
def aMissingName : Args := ⟨.str "test-group", .omitted, none, none, none, none⟩

/-- Witness for C6 (amended) at `aMissingName`. -/
theorem c6_validation_errors_at_activation_witness :
    validate aMissingName = .error (.missingNameModule
      ("name and module_name must be specified whenentrypoint is not specified")) ∧
    (constructCM aMissingName wsEmpty = .ok (⟨aMissingName, .idle⟩, wsEmpty) ∧
     enterDyn aMissingName wsEmpty = .error (.missingNameModule
       ("name and module_name must be specified whenentrypoint is not specified"), wsEmpty)) :=
  ⟨by decide, c6_validation_errors_at_activation aMissingName wsEmpty _ (by decide)⟩

/-- C7: calling `exit()` on an instance with no prior matching
`enter()` raises the UsageError with the exact message "exit called
more than enter" and leaves the working set unchanged. -/
theorem c7_exit_without_enter (a : Args) (ws : WorkingSet) :
    exitCM ⟨a, .idle⟩ ws = .error (.usage "exit called more than enter", ws) := rfl

/-- C5: `start()` after a successful `start()` is a no-op (same
instance, same working set), `stop()` after a successful `stop()` is a
no-op, and a started instance holds exactly one registry entry, which
the second `start()` does not change. -/
theorem c5_start_stop_idempotent :
    (∀ cm ws cm2 ws2, start cm ws = .ok (cm2, ws2) → start cm2 ws2 = .ok (cm2, ws2)) ∧
    (∀ cm ws cm2 ws2, stop cm ws = .ok (cm2, ws2) → stop cm2 ws2 = .ok (cm2, ws2)) ∧
    (∀ a g nv ep ws, validate a = .ok (g, nv, ep) →
      dlookup ws.by_key (distKey (scopeOf a)) = none →
      prybarFile ∉ ws.entries →
      dlookup ws.entry_keys prybarFile = none →
      ∃ cm2 ws2, start ⟨a, .idle⟩ ws = .ok (cm2, ws2) ∧
        start cm2 ws2 = .ok (cm2, ws2) ∧
        countEntries ws2 (distKey (scopeOf a)) g ep.name = 1) := by
  refine ⟨?_, ?_, ?_⟩
  · intro cm ws cm2 ws2 h
    cases hs : cm.state with
    | activeEnter h0 => simp [start, hs] at h
    | activeStart h0 =>
      simp only [start, hs, Except.ok.injEq, Prod.mk.injEq] at h
      obtain ⟨h1, h2⟩ := h
      subst h1 h2
      simp [start, hs]
    | idle =>
      simp only [start, hs] at h
      cases he : enterDyn cm.args ws with
      | error e => simp [he] at h
      | ok t =>
        obtain ⟨hd, ws'⟩ := t
        simp only [he, Except.ok.injEq, Prod.mk.injEq] at h
        obtain ⟨h1, h2⟩ := h
        subst h1 h2
        simp [start]
  · intro cm ws cm2 ws2 h
    cases hs : cm.state with
    | activeEnter h0 => simp [stop, hs] at h
    | activeStart h0 =>
      simp only [stop, hs, Except.ok.injEq, Prod.mk.injEq] at h
      obtain ⟨h1, h2⟩ := h
      subst h1 h2
      simp [stop]
    | idle =>
      simp only [stop, hs, Except.ok.injEq, Prod.mk.injEq] at h
      obtain ⟨h1, h2⟩ := h
      subst h1 h2
      simp [stop, hs]
  · intro a g nv ep ws hv hk hl he
    refine ⟨⟨a, .activeStart ⟨distKey (scopeOf a), g, nv⟩⟩,
      wsAfterFresh ws (distKey (scopeOf a)) g nv ep, ?_, ?_,
      countEntries_wsAfterFresh g nv ep hk⟩
    · simp [start, enterDyn_fresh hv hk hl he]
    · simp [start]

/-- Arguments for the C5 witness:
`dynamic_entrypoint('test-group', ep_2, scope='c5scope')`. -/
def aStartStop : Args :=
  ⟨.str "test-group", .callable "ep_2" "test_prybar", none, none, none, some "c5scope"⟩

/-- The instance and working set after `aStartStop` is started on an
empty working set. -/
def cmStarted : DynCM :=
  ⟨aStartStop, .activeStart ⟨"c5scope", "test-group", some "ep_2"⟩⟩

/-- The working set after `aStartStop` is started on an empty working
set. -/
def wsStarted : WorkingSet :=
  ⟨[("c5scope", ⟨"c5scope", prybarFile,
      [("test-group", [(some "ep_2", ⟨"ep_2", "test_prybar", ["ep_2"], some "c5scope"⟩)])]⟩)],
   [(prybarFile, ["c5scope"])], [prybarFile]⟩

/-- Witness for C5: concrete start/start and stop/stop sequences. -/
theorem c5_start_stop_idempotent_witness :
    (start ⟨aStartStop, .idle⟩ wsEmpty = .ok (cmStarted, wsStarted) ∧
     start cmStarted wsStarted = .ok (cmStarted, wsStarted)) ∧
    (stop cmStarted wsStarted = .ok (⟨aStartStop, .idle⟩, wsEmpty) ∧
     stop ⟨aStartStop, .idle⟩ wsEmpty = .ok (⟨aStartStop, .idle⟩, wsEmpty)) ∧
    countEntries wsStarted "c5scope" "test-group" "ep_2" = 1 :=
  ⟨⟨by decide,
    c5_start_stop_idempotent.1 ⟨aStartStop, .idle⟩ wsEmpty cmStarted wsStarted (by decide)⟩,
   ⟨by decide,
    c5_start_stop_idempotent.2.1 cmStarted wsStarted ⟨aStartStop, .idle⟩ wsEmpty (by decide)⟩,
   by decide⟩

/-- C8: a callable, an equivalent textual declaration and explicit
name/module fields (with the attribute defaulted) all validate to the
same normalised spec and, activated on the same prybar-free working
set, produce registry entries with identical observable name, module
and attribute path. -/
theorem c8_shapes_equivalent (n m s g scope : String) (ws : WorkingSet)
    (hp : entryPointParse s = some ⟨n, m, [n], none⟩)
    (hk : dlookup ws.by_key (distKey scope) = none)
    (hl : prybarFile ∉ ws.entries)
    (he : dlookup ws.entry_keys prybarFile = none) :
    ∃ wsC wsT wsE,
      enterDyn ⟨.str g, .callable n m, none, none, none, some scope⟩ ws
        = .ok (⟨distKey scope, g, some n⟩, wsC) ∧
      enterDyn ⟨.str g, .text s, none, none, none, some scope⟩ ws
        = .ok (⟨distKey scope, g, none⟩, wsT) ∧
      enterDyn ⟨.str g, .omitted, some n, some m, none, some scope⟩ ws
        = .ok (⟨distKey scope, g, some n⟩, wsE) ∧
      obsEntries wsC (distKey scope) g = [(n, m, [n])] ∧
      obsEntries wsT (distKey scope) g = [(n, m, [n])] ∧
      obsEntries wsE (distKey scope) g = [(n, m, [n])] := by
  have hvC : validate ⟨.str g, .callable n m, none, none, none, some scope⟩
      = .ok (g, some n, ⟨n, m, [n], none⟩) := rfl
  have hvT : validate ⟨.str g, .text s, none, none, none, some scope⟩
      = .ok (g, none, ⟨n, m, [n], none⟩) := by
    simp [validate, hp]
  have hvE : validate ⟨.str g, .omitted, some n, some m, none, some scope⟩
      = .ok (g, some n, ⟨n, m, [n], none⟩) := rfl
  exact ⟨_, _, _,
    enterDyn_fresh hvC hk hl he,
    enterDyn_fresh hvT hk hl he,
    enterDyn_fresh hvE hk hl he,
    obsEntries_wsAfterFresh g (some n) _ hk,
    obsEntries_wsAfterFresh g none _ hk,
    obsEntries_wsAfterFresh g (some n) _ hk⟩

/-- Witness for C8 at `n = ep_1`, `m = test_prybar`,
`s = "ep_1 = test_prybar:ep_1"`, group `test-group`, scope `rt`. -/
theorem c8_shapes_equivalent_witness :
    entryPointParse "ep_1 = test_prybar:ep_1"
      = some ⟨"ep_1", "test_prybar", ["ep_1"], none⟩ ∧
    ∃ wsC wsT wsE,
      enterDyn ⟨.str "test-group", .callable "ep_1" "test_prybar", none, none, none, some "rt"⟩ wsEmpty
        = .ok (⟨distKey "rt", "test-group", some "ep_1"⟩, wsC) ∧
      enterDyn ⟨.str "test-group", .text "ep_1 = test_prybar:ep_1", none, none, none, some "rt"⟩ wsEmpty
        = .ok (⟨distKey "rt", "test-group", none⟩, wsT) ∧
      enterDyn ⟨.str "test-group", .omitted, some "ep_1", some "test_prybar", none, some "rt"⟩ wsEmpty
        = .ok (⟨distKey "rt", "test-group", some "ep_1"⟩, wsE) ∧
      obsEntries wsC (distKey "rt") "test-group" = [("ep_1", "test_prybar", ["ep_1"])] ∧
      obsEntries wsT (distKey "rt") "test-group" = [("ep_1", "test_prybar", ["ep_1"])] ∧
      obsEntries wsE (distKey "rt") "test-group" = [("ep_1", "test_prybar", ["ep_1"])] :=
  ⟨by decide,
   c8_shapes_equivalent "ep_1" "test_prybar" "ep_1 = test_prybar:ep_1"
     "test-group" "rt" wsEmpty (by decide) (by decide) (by decide) (by decide)⟩

end Prybar








